import Mathlib

set_option maxRecDepth 100000

/-!
Shallow embedding of the question-to-SQL-to-answer pipeline of
`ai_agent.py` (class `BusinessAIAgent`): the query synthesizer
(`_get_predefined_query`, `_generate_sql_query`), the query executor
(`_execute_query`), the result narrator (`_interpret_results`) and the
orchestrator (`answer_question`).

The two external collaborators are modelled as oracles:
  * the language model is a function `LlmOracle : String → Except String String`
    (prompt to either the response content or the textual error of a raised
    exception), and
  * the database cursor is a function `DbOracle : String → Except String
    (List Row × List String)` (statement to either rows-plus-column-names or
    the textual sqlite error).
Functions that may invoke the model also return the number of model
invocations they performed, so that "the model is never invoked" is a
provable statement.
-/

/-!
### String primitives

Python string operations are modelled over the character list `String.data`
(a Python `str` is a sequence of code points), so that every definition is
kernel-computable. `Char.toLower`/`Char.toUpper` only map ASCII letters,
matching Python on the ASCII texts manipulated here.
-/

/-- Python `s.lower()`. -/
def lowerS (s : String) : String := String.mk (s.data.map Char.toLower)

/-- Python `s.upper()`. -/
def upperS (s : String) : String := String.mk (s.data.map Char.toUpper)

/-- Python `s.strip()` (whitespace on both ends). -/
def trimS (s : String) : String :=
  String.mk (((s.data.dropWhile Char.isWhitespace).reverse.dropWhile
    Char.isWhitespace).reverse)

/-- Python `s.startswith(pat)`. -/
def startsWithS (s pat : String) : Bool := pat.data.isPrefixOf s.data

/-- Python `s[n:]` (drop the first `n` characters). -/
def dropS (s : String) (n : Nat) : String := String.mk (s.data.drop n)

/-- Python `len(s)`. -/
def lenS (s : String) : Nat := s.data.length

/-- Helper for `s.split('\n')`: accumulator-style single-character split. -/
def splitNlAux (acc : List Char) : List Char → List (List Char)
  | [] => [acc.reverse]
  | c :: cs => if c = '\n' then acc.reverse :: splitNlAux [] cs
               else splitNlAux (c :: acc) cs

/-- Python `s.split('\n')`. -/
def splitNlS (s : String) : List String :=
  (splitNlAux [] s.data).map String.mk

/-- Python `'\n'.join(ls)`. -/
def joinNlS (ls : List String) : String :=
  String.mk (List.intercalate ['\n'] (ls.map String.data))

/-- SQLite values as they reach the Python layer (integers, text, NULL). -/
inductive Value where
  | intV : Int → Value
  | textV : String → Value
  | nullV : Value
deriving DecidableEq, Repr

/-- Python `str()` of a `Value`, as used by f-string interpolation. -/
def Value.pyStr : Value → String
  | Value.intV i => toString i
  | Value.textV s => s
  | Value.nullV => "None"

/-- Python `repr()` of a `Value`, as used when a row dict is interpolated. -/
def Value.pyRepr : Value → String
  | Value.intV i => toString i
  | Value.textV s => "\x27" ++ s ++ "\x27"
  | Value.nullV => "None"

/-- A result row: the Python `dict(row)` with insertion order preserved. -/
def Row : Type := List (String × Value)

instance : DecidableEq Row := by
  unfold Row
  infer_instance

/-- Python `row[col]` (always present for rows produced by the cursor). -/
def rowGet (r : Row) (c : String) : Value :=
  (r.lookup c).getD Value.nullV

/-- Python `repr()` of one row dict. -/
def pyReprRow (r : Row) : String :=
  "\x7b" ++
    String.intercalate ", "
      (r.map (fun kv => "\x27" ++ kv.1 ++ "\x27: " ++ kv.2.pyRepr)) ++
  "\x7d"

/-- Python `repr()` of a list of row dicts, as in `f"{results[:3]}..."`. -/
def pyReprRows (rs : List Row) : String :=
  "[" ++ String.intercalate ", " (rs.map pyReprRow) ++ "]"

/-- `pat` occurs as a contiguous sublist of `l`. -/
def listContains (pat : List Char) : List Char → Bool
  | [] => pat.isEmpty
  | c :: cs => pat.isPrefixOf (c :: cs) || listContains pat cs

/-- Python `pat in s` substring containment. -/
def strContains (s pat : String) : Bool :=
  listContains pat.data s.data

/-- Canned query returned for "best seller" + "month"/"monthly"
(`ai_agent.py` lines 127-140, exact literal). -/
def best_seller_query : String :=
  "\n            SELECT \n" ++
  "                strftime(\x27%Y-%m\x27, so.order_date) AS month,\n" ++
  "                p.product_name,\n" ++
  "                SUM(soi.quantity) AS total_quantity,\n" ++
  "                SUM(soi.line_total) AS total_revenue,\n" ++
  "                COUNT(DISTINCT so.order_id) AS order_count\n" ++
  "            FROM sales_orders so\n" ++
  "            JOIN sales_order_items soi ON so.order_id = soi.order_id\n" ++
  "            JOIN products p ON soi.product_id = p.product_id\n" ++
  "            WHERE so.order_status != \x27Cancelled\x27\n" ++
  "            GROUP BY strftime(\x27%Y-%m\x27, so.order_date), p.product_id, p.product_name\n" ++
  "            ORDER BY month DESC, total_revenue DESC\n" ++
  "            "

/-- Canned query returned for "top" + "product" + "revenue"
(`ai_agent.py` lines 143-156, exact literal). -/
def top_products_query : String :=
  "\n            SELECT \n" ++
  "                p.product_name,\n" ++
  "                SUM(soi.line_total) AS total_revenue,\n" ++
  "                SUM(soi.quantity) AS total_quantity,\n" ++
  "                COUNT(DISTINCT so.order_id) AS order_count\n" ++
  "            FROM sales_order_items soi\n" ++
  "            JOIN products p ON soi.product_id = p.product_id\n" ++
  "            JOIN sales_orders so ON soi.order_id = so.order_id\n" ++
  "            WHERE so.order_status != \x27Cancelled\x27\n" ++
  "            GROUP BY p.product_id, p.product_name\n" ++
  "            ORDER BY total_revenue DESC\n" ++
  "            LIMIT 10\n" ++
  "            "

/-- Canned query returned for "sales by month" / "monthly sales"
(`ai_agent.py` lines 159-170, exact literal). -/
def monthly_sales_query : String :=
  "\n            SELECT \n" ++
  "                strftime(\x27%Y-%m\x27, order_date) AS month,\n" ++
  "                COUNT(*) AS order_count,\n" ++
  "                SUM(total_amount) AS total_revenue,\n" ++
  "                AVG(total_amount) AS avg_order_value\n" ++
  "            FROM sales_orders\n" ++
  "            WHERE order_status != \x27Cancelled\x27\n" ++
  "            GROUP BY strftime(\x27%Y-%m\x27, order_date)\n" ++
  "            ORDER BY month DESC\n" ++
  "            LIMIT 12\n" ++
  "            "

/-- Canned query returned for "low stock" / "reorder"
(`ai_agent.py` lines 173-185, exact literal). -/
def low_stock_query : String :=
  "\n            SELECT \n" ++
  "                p.product_name,\n" ++
  "                w.warehouse_name,\n" ++
  "                i.quantity_on_hand,\n" ++
  "                i.reorder_level,\n" ++
  "                i.max_stock_level\n" ++
  "            FROM inventory i\n" ++
  "            JOIN products p ON i.product_id = p.product_id\n" ++
  "            JOIN warehouses w ON i.warehouse_id = w.warehouse_id\n" ++
  "            WHERE i.quantity_on_hand <= i.reorder_level\n" ++
  "            ORDER BY i.quantity_on_hand ASC\n" ++
  "            "

/-- First fast-path predicate on the lower-cased question
(`"best seller" in q and ("month" in q or "monthly" in q)`). -/
def bestSellerPred (ql : String) : Bool :=
  strContains ql "best seller" && (strContains ql "month" || strContains ql "monthly")

/-- Second fast-path predicate (`"top" in q and "product" in q and "revenue" in q`). -/
def topProductsPred (ql : String) : Bool :=
  strContains ql "top" && strContains ql "product" && strContains ql "revenue"

/-- Third fast-path predicate (`"sales by month" in q or "monthly sales" in q`). -/
def monthlySalesPred (ql : String) : Bool :=
  strContains ql "sales by month" || strContains ql "monthly sales"

/-- Fourth fast-path predicate (`"low stock" in q or "reorder" in q`). -/
def lowStockPred (ql : String) : Bool :=
  strContains ql "low stock" || strContains ql "reorder"

/-- `BusinessAIAgent._get_predefined_query`: the ordered if/elif chain over
the lower-cased question; `none` models Python `None`. -/
def get_predefined_query (question : String) : Option String :=
  let question_lower := lowerS question
  if bestSellerPred question_lower then some best_seller_query
  else if topProductsPred question_lower then some top_products_query
  else if monthlySalesPred question_lower then some monthly_sales_query
  else if lowStockPred question_lower then some low_stock_query
  else none

/-- `BusinessAIAgent._get_database_schema`: the static schema text
(`ai_agent.py` lines 49-112, exact literal). -/
def db_schema : String :=
  "\nDATABASE SCHEMA INFORMATION:\n" ++
  "\n" ++
  "TABLES AND RELATIONSHIPS:\n" ++
  "\n" ++
  "1. categories\n" ++
  "   - category_id (PRIMARY KEY)\n" ++
  "   - category_name (e.g., Electronics, Clothing, etc.)\n" ++
  "   - description\n" ++
  "\n" ++
  "2. suppliers  \n" ++
  "   - supplier_id (PRIMARY KEY)\n" ++
  "   - supplier_name, contact_person, email, phone\n" ++
  "   - address, city, country\n" ++
  "\n" ++
  "3. products\n" ++
  "   - product_id (PRIMARY KEY)\n" ++
  "   - product_name, product_code\n" ++
  "   - category_id (FOREIGN KEY -> categories)\n" ++
  "   - supplier_id (FOREIGN KEY -> suppliers)  \n" ++
  "   - unit_price, cost_price\n" ++
  "   - weight, dimensions, is_active\n" ++
  "\n" ++
  "4. warehouses\n" ++
  "   - warehouse_id (PRIMARY KEY)\n" ++
  "   - warehouse_name, location, capacity\n" ++
  "   - manager_name, phone\n" ++
  "\n" ++
  "5. inventory\n" ++
  "   - product_id, warehouse_id (FOREIGN KEYS)\n" ++
  "   - quantity_on_hand, quantity_reserved\n" ++
  "   - reorder_level, max_stock_level\n" ++
  "\n" ++
  "6. customers\n" ++
  "   - customer_id (PRIMARY KEY)\n" ++
  "   - customer_name, customer_type (Individual/Business)\n" ++
  "   - email, phone, address, city, country\n" ++
  "   - credit_limit\n" ++
  "\n" ++
  "7. sales_orders\n" ++
  "   - order_id (PRIMARY KEY)\n" ++
  "   - order_number, customer_id, warehouse_id\n" ++
  "   - order_date, required_date, shipped_date\n" ++
  "   - order_status (Pending, Processing, Shipped, Delivered, Cancelled)\n" ++
  "   - payment_status (Pending, Paid, Partial, Refunded)\n" ++
  "   - subtotal, tax_amount, shipping_cost, total_amount\n" ++
  "\n" ++
  "8. sales_order_items\n" ++
  "   - order_id (FOREIGN KEY -> sales_orders)\n" ++
  "   - product_id (FOREIGN KEY -> products)\n" ++
  "   - quantity, unit_price, discount_percentage, line_total\n" ++
  "\n" ++
  "9. inventory_movements\n" ++
  "   - product_id, warehouse_id\n" ++
  "   - movement_type (IN, OUT, TRANSFER, ADJUSTMENT)\n" ++
  "   - quantity, movement_date, reference_type\n" ++
  "\n" ++
  "COMMON BUSINESS QUERIES:\n" ++
  "- Revenue analysis: Use sales_orders and sales_order_items\n" ++
  "- Inventory levels: Use inventory table\n" ++
  "- Product performance: Join products with sales_order_items\n" ++
  "- Customer analysis: Use customers and sales_orders\n" ++
  "- Warehouse operations: Use warehouses, inventory, sales_orders\n"

/-- The generation prompt f-string of `_generate_sql_query`
(`ai_agent.py` lines 197-217, exact literal around the interpolations). -/
def sql_prompt (question : String) : String :=
  "\nYou are a SQL expert for a business inventory and sales database. \n" ++
  "Convert the following business question into a SQL query.\n" ++
  "\n" ++
  db_schema ++
  "\n" ++
  "\n" ++
  "CRITICAL RULES:\n" ++
  "1. Return ONLY the SQL query - NO explanations, NO comments, NO extra text\n" ++
  "2. Generate ONLY valid SQLite SQL queries\n" ++
  "3. Use proper JOINs when accessing related tables\n" ++
  "4. Include appropriate WHERE clauses for filtering\n" ++
  "5. Use aggregate functions (SUM, COUNT, AVG) when needed\n" ++
  "6. Format dates properly for SQLite using strftime()\n" ++
  "7. Always include column aliases for clarity\n" ++
  "8. Limit results to reasonable numbers (use LIMIT if needed)\n" ++
  "9. Start directly with SELECT, not with \"Here is\" or any explanation\n" ++
  "\n" ++
  "QUESTION: " ++ question ++ "\n" ++
  "\n" ++
  "SQL:\n"

/-- The backtick character (U+0060), head of a code-fence marker. -/
def backtickChar : Char := Char.ofNat 96

/-- Drop a single leading newline, if present (the `\n?` of the fence
patterns, which greedily consumes at most one newline). -/
def dropOneNl : List Char → List Char
  | '\n' :: cs => cs
  | cs => cs

/-- Fuel-driven engine of the `re.sub` deletion of a fence marker: scans left
to right, deleting every non-overlapping occurrence of the (non-empty) tag
`t0 :: trest` together with one following newline, exactly as `re.sub` does
with the patterns `tag\n?` and an empty replacement. The fuel starts at the
list length; each step consumes at least one character, so the zero-fuel
clause is unreachable. -/
def stripTagGo (t0 : Char) (trest : List Char) : Nat → List Char → List Char
  | _, [] => []
  | 0, l => l
  | fuel + 1, c :: cs =>
    if (t0 :: trest).isPrefixOf (c :: cs) then
      stripTagGo t0 trest fuel (dropOneNl (cs.drop trest.length))
    else c :: stripTagGo t0 trest fuel cs

/-- `re.sub` deletion of every occurrence of the tag `t0 :: trest` plus an
optional following newline in `l`. -/
def stripTag (t0 : Char) (trest : List Char) (l : List Char) : List Char :=
  stripTagGo t0 trest l.length l

/-- The ordered `prefixes_to_remove` list of `_generate_sql_query`
(`ai_agent.py` lines 228-237). -/
def prefixes_to_remove : List String :=
  ["Here is the SQL query:",
   "Here\x27s the SQL query:",
   "SQL Query:",
   "The SQL query is:",
   "Query:",
   "SQL:",
   "Here is",
   "Here\x27s"]

/-- The prefix-removal loop of `_generate_sql_query` (lines 239-241): for each
listed phrase in order, if the lower-cased text starts with its lower-cased
form, slice it off and strip the remainder. -/
def stripKnownPrefixes (s : String) : String :=
  prefixes_to_remove.foldl
    (fun sql p =>
      if startsWithS (lowerS sql) (lowerS p) then trimS (dropS sql (lenS p))
      else sql)
    s

/-- The keyword list of the `elif` branch of the line scan
(`ai_agent.py` line 253). -/
def scan_keywords : List String := ["WITH", "CREATE", "INSERT", "UPDATE", "DELETE"]

/-- The line-scan loop of `_generate_sql_query` (lines 244-255): each line is
stripped; once a line starts (upper-cased) with `SELECT`, or contains one of
`scan_keywords` in its upper-cased text, that line and every later line is
kept. -/
def scanAux : Bool → List String → List String
  | _, [] => []
  | found_select, l :: ls =>
    let line := trimS l
    if startsWithS (upperS line) "SELECT" || found_select then
      line :: scanAux true ls
    else if scan_keywords.any (fun kw => strContains (upperS line) kw) then
      line :: scanAux true ls
    else
      scanAux found_select ls

/-- Lines 244-258: split on newlines, run the scan, and join the kept lines;
if no line was kept the text is left unchanged. -/
def scanLines (s : String) : String :=
  let sql_lines := scanAux false (splitNlS s)
  if sql_lines.isEmpty then s else joinNlS sql_lines

/-- The validation list of `_generate_sql_query` (line 264). -/
def sql_commands : List String :=
  ["SELECT", "WITH", "CREATE", "INSERT", "UPDATE", "DELETE"]

/-- Line 264: `any(sql_query.upper().startswith(cmd) for cmd in [...])`. -/
def startsWithSqlCommand (sql : String) : Bool :=
  sql_commands.any (fun cmd => startsWithS (upperS sql) cmd)

/-- The whole cleanup pass of `_generate_sql_query` (lines 221-261): strip the
raw content, delete the code-fence markers, remove known preamble phrases,
run the line scan, and strip once more. -/
def cleanupModelOutput (content : String) : String :=
  let sql0 := trimS content
  let sql1 := String.mk
    (stripTag backtickChar [backtickChar, backtickChar, 's', 'q', 'l'] sql0.data)
  let sql2 := String.mk (stripTag backtickChar [backtickChar, backtickChar] sql1.data)
  let sql3 := stripKnownPrefixes sql2
  let sql4 := scanLines sql3
  trimS sql4

/-- The language model: prompt to response content, or the text of the raised
exception. -/
abbrev LlmOracle : Type := String → Except String String

/-- The message of the validation failure, wrapped by the outer handler of
`_generate_sql_query` (lines 265 and 270). -/
def gen_validation_error : String :=
  "Error generating SQL query: Generated query doesn\x27t start with a valid SQL command"

/-- `BusinessAIAgent._generate_sql_query` (lines 189-270): fast path first;
otherwise one model call, cleanup, and validation. The second component
counts model invocations. -/
def generate_sql_query (llm : LlmOracle) (question : String) :
    Except String String × Nat :=
  match get_predefined_query question with
  | some predefined => (Except.ok (trimS predefined), 0)
  | none =>
    match llm (sql_prompt question) with
    | Except.error e => (Except.error ("Error generating SQL query: " ++ e), 1)
    | Except.ok content =>
      let sql_query := cleanupModelOutput content
      if startsWithSqlCommand sql_query then (Except.ok sql_query, 1)
      else (Except.error gen_validation_error, 1)

/-- The database cursor: statement to rows-plus-column-names, or the text of
the raised `sqlite3.Error`. -/
abbrev DbOracle : Type := String → Except String (List Row × List String)

/-- `BusinessAIAgent._execute_query` (lines 272-293). The second component
records whether `conn.close()` ran before control left the method: only the
success path reaches the `conn.close()` on line 287 — when `cursor.execute`
raises, the `except` clause re-raises `"Database error: ..."` with no
`finally` and no context manager, so the connection is not closed. -/
def execute_query (db : DbOracle) (sql_query : String) :
    Except String (List Row × List String) × Bool :=
  match db sql_query with
  | Except.ok (results, columns) => (Except.ok (results, columns), true)
  | Except.error e => (Except.error ("Database error: " ++ e), false)

/-- Python `sep.join(ls)`. -/
def joinWith (sep : String) (ls : List String) : String :=
  String.mk (List.intercalate sep.data (ls.map String.data))

/-- One rendered result row: `" | ".join(f"{col}: {row[col]}" for col in columns)`
(`ai_agent.py` lines 306 and 311). -/
def rowLine (columns : List String) (row : Row) : String :=
  joinWith " | " (columns.map (fun col => col ++ ": " ++ (rowGet row col).pyStr))

/-- The `results_text` accumulation of `_interpret_results` (lines 302-311):
all rows, numbered from 1, when there are at most 10; otherwise a count
header followed by the first 5 rows. -/
def results_text (results : List Row) (columns : List String) : String :=
  if results.length ≤ 10 then
    (results.enumFrom 1).foldl
      (fun acc p => acc ++ "\n" ++ toString p.1 ++ ". " ++ rowLine columns p.2)
      ""
  else
    ((results.take 5).enumFrom 1).foldl
      (fun acc p => acc ++ toString p.1 ++ ". " ++ rowLine columns p.2 ++ "\n")
      ("\nFound " ++ toString results.length ++ " records. Here are the first 5:\n")

/-- The interpretation prompt f-string of `_interpret_results`
(`ai_agent.py` lines 313-330, exact literal around the interpolations). -/
def analysis_prompt (question : String) (results : List Row)
    (columns : List String) : String :=
  "\nYou are a business analyst. Interpret the following query results and provide insights.\n" ++
  "\n" ++
  "ORIGINAL QUESTION: " ++ question ++ "\n" ++
  "\n" ++
  "QUERY RESULTS (" ++ toString results.length ++ " records):\n" ++
  results_text results columns ++ "\n" ++
  "\n" ++
  "INSTRUCTIONS:\n" ++
  "1. Provide a clear, concise summary of the findings\n" ++
  "2. Highlight key insights and trends\n" ++
  "3. Use business language, not technical jargon\n" ++
  "4. Include specific numbers and percentages where relevant\n" ++
  "5. Suggest actionable recommendations if appropriate\n" ++
  "6. Keep response under 200 words\n" ++
  "\n" ++
  "BUSINESS ANALYSIS:\n"

/-- The fixed no-data reply of `_interpret_results` (line 299). -/
def no_data_message : String := "No data found for your query."

/-- `BusinessAIAgent._interpret_results` (lines 295-336): fixed reply on an
empty result set; otherwise one model call, with the model failure converted
to the degraded text of line 336 (`f"{results[:3]}..."` renders the first
three row dicts). The second component counts model invocations. -/
def interpret_results (llm : LlmOracle) (question : String) (results : List Row)
    (columns : List String) : String × Nat :=
  if results.isEmpty then (no_data_message, 0)
  else
    match llm (analysis_prompt question results columns) with
    | Except.ok content => (trimS content, 1)
    | Except.error e =>
      ("Results found but interpretation failed: " ++ e ++
        "\n\nRaw results: " ++ pyReprRows (results.take 3) ++ "...", 1)

/-- The dictionary returned by `answer_question` (lines 362-383), with the
failure-only `error` key as an `Option`. -/
structure AnswerRecord where
  success : Bool
  question : String
  sql_query : Option String
  results : List Row
  columns : List String
  analysis : String
  record_count : Nat
  error : Option String
deriving DecidableEq

/-- The failure dictionary built by the `except` clause of `answer_question`
(lines 372-383). -/
def failure_record (question e : String) : AnswerRecord :=
  { success := false
    question := question
    sql_query := none
    results := []
    columns := []
    analysis := "Sorry, I couldn\x27t process your question: " ++ e
    record_count := 0
    error := some e }

/-- `BusinessAIAgent.answer_question` (lines 338-383): synthesis, execution,
then narration, with every raised exception converted to `failure_record`. -/
def answer_question (llm : LlmOracle) (db : DbOracle) (question : String) :
    AnswerRecord :=
  match (generate_sql_query llm question).1 with
  | Except.error e => failure_record question e
  | Except.ok sql_query =>
    match (execute_query db sql_query).1 with
    | Except.error e => failure_record question e
    | Except.ok (results, columns) =>
      { success := true
        question := question
        sql_query := some sql_query
        results := results
        columns := columns
        analysis := (interpret_results llm question results columns).1
        record_count := results.length
        error := none }

/-- A post-cleanup line that makes the line scan start keeping lines: it
starts (upper-cased) with `SELECT`, or merely contains one of the five other
keywords anywhere in its upper-cased text. -/
def lineQualifies (l : String) : Bool :=
  startsWithS (upperS (trimS l)) "SELECT" ||
    scan_keywords.any (fun kw => strContains (upperS (trimS l)) kw)

/-!
### Theorems
-/

/-- Helper: the scan keeps (and strips) every line once the flag is set. -/
theorem scanAux_true_eq_map (ls : List String) :
    scanAux true ls = ls.map trimS := by
  induction ls with
  | nil => rfl
  | cons l ls ih => simp [scanAux, ih]

/-- Helper: with the flag unset, the scan drops lines exactly until the first
qualifying one. -/
theorem scanAux_false_eq_dropWhile (ls : List String) :
    scanAux false ls = (ls.dropWhile (fun l => !lineQualifies l)).map trimS := by
  induction ls with
  | nil => rfl
  | cons l ls ih =>
    cases hb1 : startsWithS (upperS (trimS l)) "SELECT" <;>
      cases hb2 : scan_keywords.any (fun kw => strContains (upperS (trimS l)) kw) <;>
        simp [scanAux, lineQualifies, hb1, hb2, ih, List.dropWhile, scanAux_true_eq_map]

/-- Helper: `dropWhile` is empty exactly when every element satisfies the
predicate. -/
theorem dropWhile_eq_nil_iff_all (p : String → Bool) (ls : List String) :
    ls.dropWhile p = [] ↔ ∀ x ∈ ls, p x = true := by
  induction ls with
  | nil => simp [List.dropWhile]
  | cons a l ih => by_cases h : p a = true <;> simp [List.dropWhile, h, ih]

/-- C1: for every question whose lower-cased text matches a fast-path keyword
predicate, `_generate_sql_query` returns exactly the corresponding canned
statement (as stripped on return), the predicates are tested in the fixed
if/elif order with the first match winning, and the language model is never
invoked (invocation count 0) — for any model behaviour whatsoever. -/
theorem fast_path_returns_canned_query (llm : LlmOracle) (q : String) :
    (bestSellerPred (lowerS q) = true →
      generate_sql_query llm q = (Except.ok (trimS best_seller_query), 0)) ∧
    (bestSellerPred (lowerS q) = false → topProductsPred (lowerS q) = true →
      generate_sql_query llm q = (Except.ok (trimS top_products_query), 0)) ∧
    (bestSellerPred (lowerS q) = false → topProductsPred (lowerS q) = false →
      monthlySalesPred (lowerS q) = true →
      generate_sql_query llm q = (Except.ok (trimS monthly_sales_query), 0)) ∧
    (bestSellerPred (lowerS q) = false → topProductsPred (lowerS q) = false →
      monthlySalesPred (lowerS q) = false → lowStockPred (lowerS q) = true →
      generate_sql_query llm q = (Except.ok (trimS low_stock_query), 0)) := by
  refine ⟨fun h1 => ?_, fun h1 h2 => ?_, fun h1 h2 h3 => ?_, fun h1 h2 h3 h4 => ?_⟩
  · simp [generate_sql_query, get_predefined_query, h1]
  · simp [generate_sql_query, get_predefined_query, h1, h2]
  · simp [generate_sql_query, get_predefined_query, h1, h2, h3]
  · simp [generate_sql_query, get_predefined_query, h1, h2, h3, h4]

/-- C1 witness: a concrete fast-path question is answered with the canned
best-seller statement and zero model calls even though the model errors on
every prompt; a question matching both the first and the fourth predicate
still gets the statement of the first predicate. -/
theorem fast_path_returns_canned_query_witness :
    bestSellerPred (lowerS "Best seller this month?") = true ∧
    generate_sql_query (fun _ => Except.error "model unavailable")
      "Best seller this month?" = (Except.ok (trimS best_seller_query), 0) ∧
    bestSellerPred (lowerS "best seller, month, and low stock") = true ∧
    lowStockPred (lowerS "best seller, month, and low stock") = true ∧
    generate_sql_query (fun _ => Except.error "model unavailable")
      "best seller, month, and low stock" =
      (Except.ok (trimS best_seller_query), 0) :=
  ⟨by decide,
   (fast_path_returns_canned_query _ _).1 (by decide),
   by decide,
   by decide,
   (fast_path_returns_canned_query _ _).1 (by decide)⟩

/-- C2: for every raw model output, the cleanup pass of `_generate_sql_query`
either yields a query that starts, case-insensitively, with one of SELECT,
WITH, CREATE, INSERT, UPDATE, DELETE (whenever synthesis returns `ok`, the
returned string passes `startsWithSqlCommand`), or synthesis fails with the
generation error; in particular the empty model output always fails with the
generation error. -/
theorem cleanup_validation_sound (llm : LlmOracle) (q raw : String)
    (hfast : get_predefined_query q = none)
    (hraw : llm (sql_prompt q) = Except.ok raw) :
    (∀ s, (generate_sql_query llm q).1 = Except.ok s →
      startsWithSqlCommand s = true) ∧
    (raw = "" →
      (generate_sql_query llm q).1 = Except.error gen_validation_error) := by
  have hres : generate_sql_query llm q =
      (if startsWithSqlCommand (cleanupModelOutput raw) then
        (Except.ok (cleanupModelOutput raw), 1)
      else (Except.error gen_validation_error, 1)) := by
    simp [generate_sql_query, hfast, hraw]
  constructor
  · intro s hs
    rw [hres] at hs
    revert hs
    generalize cleanupModelOutput raw = c
    cases hv : startsWithSqlCommand c with
    | false =>
      intro hs
      simp at hs
    | true =>
      intro hs
      simp at hs
      rw [← hs]
      exact hv
  · intro h0
    subst h0
    rw [hres,
      show startsWithSqlCommand (cleanupModelOutput "") = false from by decide]
    rfl

/-- C2 witness: with no fast-path match and a model returning the empty
output, synthesis fails with the generation error. -/
theorem cleanup_validation_sound_witness :
    (generate_sql_query (fun _ => Except.ok "") "hello").1 =
      Except.error gen_validation_error :=
  (cleanup_validation_sound (fun _ => Except.ok "") "hello" ""
    (by decide) rfl).2 rfl

/-- C3: whenever synthesis or execution fails, `answer_question` returns the
uniform failure record: `success = false`, the error detail populated, empty
results and columns, count 0, a discarded query, and a narrative that is the
apology with the error text appended; the embedding is a total function, so
no exception reaches the caller. -/
theorem orchestrator_failure_uniform (llm : LlmOracle) (db : DbOracle)
    (q : String) :
    (∀ e, (generate_sql_query llm q).1 = Except.error e →
      answer_question llm db q = failure_record q e) ∧
    (∀ sql e, (generate_sql_query llm q).1 = Except.ok sql →
      (execute_query db sql).1 = Except.error e →
      answer_question llm db q = failure_record q e) ∧
    (∀ e, (failure_record q e).success = false ∧
      (failure_record q e).error = some e ∧
      (failure_record q e).results = [] ∧
      (failure_record q e).columns = [] ∧
      (failure_record q e).record_count = 0 ∧
      (failure_record q e).analysis =
        "Sorry, I couldn\x27t process your question: " ++ e) := by
  refine ⟨fun e he => ?_, fun sql e h1 h2 => ?_, fun e => ?_⟩
  · simp [answer_question, he]
  · simp [answer_question, h1, h2]
  · exact ⟨rfl, rfl, rfl, rfl, rfl, rfl⟩

/-- C3 witness: a model that raises on every prompt yields the concrete
failure record with the wrapped generation error. -/
theorem orchestrator_failure_uniform_witness :
    answer_question (fun _ => Except.error "rate limit")
      (fun _ => Except.ok ([], [])) "hello" =
      failure_record "hello" "Error generating SQL query: rate limit" :=
  (orchestrator_failure_uniform (fun _ => Except.error "rate limit")
    (fun _ => Except.ok ([], [])) "hello").1
    "Error generating SQL query: rate limit" rfl

/-- C4 counterexample: the line scan does not discard every line up to the
first line that starts with a recognized SQL keyword. On the input
`"I can help with that\nSELECT 1"` the first line starts with no SQL keyword
(the claim demands it be discarded, leaving `"SELECT 1"`), yet the scan keeps
it, because its upper-cased text contains `"WITH"` inside the word `"with"`. -/
theorem line_scan_counterexample :
    scanLines "I can help with that\nSELECT 1" =
      "I can help with that\nSELECT 1" ∧
    startsWithSqlCommand "I can help with that" = false ∧
    scanLines "I can help with that\nSELECT 1" ≠ "SELECT 1" := by
  exact ⟨by decide, by decide, by decide⟩

/-- C4 amended: the scan discards every line until a line either starts
(upper-cased) with `SELECT` or merely contains one of WITH, CREATE, INSERT,
UPDATE, DELETE anywhere in its upper-cased text; from that line on every line
is kept in its stripped form, and if no line qualifies the text is returned
unchanged. -/
theorem line_scan_amended (s : String) :
    scanLines s =
      if (splitNlS s).all (fun l => !lineQualifies l) then s
      else joinNlS
        (((splitNlS s).dropWhile (fun l => !lineQualifies l)).map trimS) := by
  unfold scanLines
  rw [scanAux_false_eq_dropWhile]
  by_cases h : (splitNlS s).all (fun l => !lineQualifies l) = true
  · have hnil : (splitNlS s).dropWhile (fun l => !lineQualifies l) = [] := by
      rw [dropWhile_eq_nil_iff_all]
      intro x hx
      exact List.all_eq_true.mp h x hx
    simp [hnil, h]
  · have hne : (splitNlS s).dropWhile (fun l => !lineQualifies l) ≠ [] := by
      intro hnil
      exact h (List.all_eq_true.mpr ((dropWhile_eq_nil_iff_all _ _).mp hnil))
    have hmapne :
        ((splitNlS s).dropWhile (fun l => !lineQualifies l)).map trimS ≠ [] := by
      simpa using hne
    simp only [h, if_false]
    simp [List.isEmpty_iff, hmapne]

/-- C5: `_execute_query` closes the connection on the success path, but NOT
on the failure path — there is no `finally` and no context manager, so when
`cursor.execute` raises, the wrapped `"Database error: ..."` exception
propagates with the connection still open. Evaluated at the concrete failing
statement `"SELEC * FROM products"` (a syntax error): the closed-flag is
`false` there, against the claim that the connection is closed on all exit
paths. -/
theorem execute_query_leaks_connection_on_error :
    (execute_query (fun _ => Except.ok ([], [])) "SELECT 1").2 = true ∧
    (execute_query (fun _ => Except.error "near \x22SELEC\x22: syntax error")
      "SELEC * FROM products").1 =
      Except.error "Database error: near \x22SELEC\x22: syntax error" ∧
    (execute_query (fun _ => Except.error "near \x22SELEC\x22: syntax error")
      "SELEC * FROM products").2 = false :=
  ⟨rfl, rfl, rfl⟩

/-- C6: when synthesis and execution succeed with a non-empty result set and
the narration model call fails, `answer_question` still returns a record with
`success = true`, whose narrative is the degraded fallback text embedding the
narration error and the rendered preview of the first (at most 3) rows. -/
theorem narration_failure_degrades_gracefully (llm : LlmOracle) (db : DbOracle)
    (q sql e : String) (rows : List Row) (cols : List String)
    (hgen : (generate_sql_query llm q).1 = Except.ok sql)
    (hexec : (execute_query db sql).1 = Except.ok (rows, cols))
    (hrows : rows ≠ [])
    (hnarr : llm (analysis_prompt q rows cols) = Except.error e) :
    answer_question llm db q =
      { success := true
        question := q
        sql_query := some sql
        results := rows
        columns := cols
        analysis := "Results found but interpretation failed: " ++ e ++
          "\n\nRaw results: " ++ pyReprRows (rows.take 3) ++ "..."
        record_count := rows.length
        error := none } := by
  have hne : rows.isEmpty = false := by
    cases rows with
    | nil => exact absurd rfl hrows
    | cons r rs => rfl
  simp [answer_question, hgen, hexec, interpret_results, hne, hnarr]

/-- C6 witness: four result rows, a model that answers the generation prompt
but raises "quota exceeded" on the narration prompt — the record succeeds and
the fallback narrative previews only the first three rows. -/
theorem narration_failure_degrades_gracefully_witness :
    answer_question
      (fun p => if startsWithS p "\nYou are a SQL expert" then
          Except.ok "SELECT n FROM t" else Except.error "quota exceeded")
      (fun _ => Except.ok
        ([[("n", Value.intV 1)], [("n", Value.intV 2)],
          [("n", Value.intV 3)], [("n", Value.intV 4)]], ["n"]))
      "hi" =
      { success := true
        question := "hi"
        sql_query := some "SELECT n FROM t"
        results := [[("n", Value.intV 1)], [("n", Value.intV 2)],
          [("n", Value.intV 3)], [("n", Value.intV 4)]]
        columns := ["n"]
        analysis := "Results found but interpretation failed: quota exceeded" ++
          "\n\nRaw results: [\x7b\x27n\x27: 1\x7d, \x7b\x27n\x27: 2\x7d, \x7b\x27n\x27: 3\x7d]..."
        record_count := 4
        error := none } :=
  narration_failure_degrades_gracefully
    (fun p => if startsWithS p "\nYou are a SQL expert" then
        Except.ok "SELECT n FROM t" else Except.error "quota exceeded")
    (fun _ => Except.ok
      ([[("n", Value.intV 1)], [("n", Value.intV 2)],
        [("n", Value.intV 3)], [("n", Value.intV 4)]], ["n"]))
    "hi" "SELECT n FROM t" "quota exceeded"
    [[("n", Value.intV 1)], [("n", Value.intV 2)],
      [("n", Value.intV 3)], [("n", Value.intV 4)]] ["n"]
    rfl rfl (by decide) rfl

/-- C7: `_interpret_results` on an empty result set returns the fixed no-data
message for every question and column list, with zero model invocations,
whatever the model would do. -/
theorem empty_results_fixed_message (llm : LlmOracle) (q : String)
    (cols : List String) :
    interpret_results llm q [] cols = (no_data_message, 0) := rfl

/-- C8: with no fast-path match and a model whose raw output is the fenced
text of the claim (the Here-is-the-SQL-query preamble, a ```sql fence,
`SELECT 1`, and a closing fence), the synthesized query is exactly
`"SELECT 1"` (one model call). -/
theorem fenced_output_cleans_to_select_one (llm : LlmOracle) (q : String)
    (hfast : get_predefined_query q = none)
    (hraw : llm (sql_prompt q) = Except.ok
      "Here\x27s the SQL query:\n\x60\x60\x60sql\nSELECT 1\n\x60\x60\x60") :
    generate_sql_query llm q = (Except.ok "SELECT 1", 1) := by
  have hclean : cleanupModelOutput
      "Here\x27s the SQL query:\n\x60\x60\x60sql\nSELECT 1\n\x60\x60\x60" =
      "SELECT 1" := by decide
  simp [generate_sql_query, hfast, hraw, hclean,
    show startsWithSqlCommand "SELECT 1" = true from by decide]

/-- C8 witness: the concrete question "how are we doing" matches no fast-path
pattern and the fenced model output cleans to exactly `SELECT 1`. -/
theorem fenced_output_cleans_to_select_one_witness :
    generate_sql_query
      (fun _ => Except.ok
        "Here\x27s the SQL query:\n\x60\x60\x60sql\nSELECT 1\n\x60\x60\x60")
      "how are we doing" = (Except.ok "SELECT 1", 1) :=
  fenced_output_cleans_to_select_one
    (fun _ => Except.ok
      "Here\x27s the SQL query:\n\x60\x60\x60sql\nSELECT 1\n\x60\x60\x60")
    "how are we doing" (by decide) rfl

/-- C9 counterexample: `answer_question` does NOT reject or fail on the
empty-string question — with a model that returns a valid statement and a
database that returns a row, the empty question produces a record with
`success = true` and no error, so the claimed non-empty validation does not
exist in the code. -/
theorem empty_question_not_rejected :
    (answer_question (fun _ => Except.ok "SELECT 1")
      (fun _ => Except.ok ([[("one", Value.intV 1)]], ["one"])) "").success =
      true ∧
    (answer_question (fun _ => Except.ok "SELECT 1")
      (fun _ => Except.ok ([[("one", Value.intV 1)]], ["one"])) "").error =
      none := by
  exact ⟨by decide, by decide⟩

/-- C9 amended: `answer_question` applies no validation at all to the
question text — the empty-string question is handled exactly like any other
unmatched question: it matches no fast-path predicate and is passed to the
language model (exactly one generation call), whatever the model does. -/
theorem no_validation_on_empty_question (llm : LlmOracle) :
    get_predefined_query "" = none ∧ (generate_sql_query llm "").2 = 1 := by
  constructor
  · decide
  · unfold generate_sql_query
    simp only [show get_predefined_query "" = none from by decide]
    cases hl : llm (sql_prompt "") with
    | error e => simp
    | ok content =>
      simp only []
      generalize cleanupModelOutput content = c
      cases hv : startsWithSqlCommand c <;> simp [hv]

/-- C10: whenever synthesis succeeds but execution fails, the failure record
returned by `answer_question` carries `sql_query = none`: the successfully
synthesized statement is discarded from the caller-facing record. -/
theorem failure_discards_synthesized_query (llm : LlmOracle) (db : DbOracle)
    (q sql e : String)
    (hgen : (generate_sql_query llm q).1 = Except.ok sql)
    (hexec : (execute_query db sql).1 = Except.error e) :
    (answer_question llm db q).sql_query = none ∧
    (answer_question llm db q).success = false := by
  simp [answer_question, hgen, hexec, failure_record]

/-- C10 witness: generation succeeds with `SELECT 1`, the database raises
"no such table: nope", and the returned record has no synthesized query. -/
theorem failure_discards_synthesized_query_witness :
    (answer_question (fun _ => Except.ok "SELECT 1")
      (fun _ => Except.error "no such table: nope") "hello").sql_query = none ∧
    (answer_question (fun _ => Except.ok "SELECT 1")
      (fun _ => Except.error "no such table: nope") "hello").success = false :=
  failure_discards_synthesized_query (fun _ => Except.ok "SELECT 1")
    (fun _ => Except.error "no such table: nope") "hello" "SELECT 1"
    "Database error: no such table: nope" rfl rfl
